import Mathlib

/-!
Verification of the pump-wait primitive of `src/src/webview2.rs`
(`wait_with_pump`) and its `Error` type, as a shallow embedding.

The loop interacts with its surroundings only through three channels:
the successive results of `rx.try_recv()`, the successive results of
`GetMessageA` (the returned code together with the `MSG` the call wrote),
and the thread error state read by `HRESULT::from_thread()`.  An
invocation is therefore modelled as a function of an environment that
scripts those three, plus a fuel bound on the number of loop iterations
(the source loop is unbounded; running out of fuel is reported as a
distinct `running` outcome, never as a return).
-/

namespace Webview2

/-- Model of a native `MSG` record.  The loop never inspects a message's
contents; it only hands the record on to `TranslateMessage` and
`DispatchMessageA`, so an opaque identifier suffices. -/
structure MSG where
  msgId : Nat
deriving DecidableEq, Repr

/-- Model of `windows::HRESULT` (a native result code). -/
abbrev HRESULT := Int

/-- Model of `windows::Error`: the loop only ever builds one from a bare
`HRESULT` via `windows::Error::fast_error`, so the code is all we keep. -/
structure WinError where
  hresult : HRESULT
deriving DecidableEq, Repr

/-- `windows::Error::fast_error(err)`: build a `windows::Error` from an
`HRESULT` alone. -/
def WinError.fast_error (h : HRESULT) : WinError := ⟨h⟩

/-- The `Error` enum of `src/src/webview2.rs`, lines 11-17: exactly four
variants, two of them carrying payloads. -/
inductive Error where
  | WindowsError (err : WinError)
  | CallbackError (msg : String)
  | TaskCanceled
  | SendError
deriving DecidableEq, Repr

/-- The `impl From<windows::Error> for Error` conversion (lines 19-23). -/
def Error.fromWinError (err : WinError) : Error := .WindowsError err

/-- The `impl From<HRESULT> for Error` conversion (lines 25-29):
`WindowsError(windows::Error::fast_error(err))`. -/
def Error.fromHRESULT (err : HRESULT) : Error :=
  .WindowsError (WinError.fast_error err)

/-- The `Result<T>` alias of the source (line 31): success or `Error`. -/
inductive Result (T : Type) where
  | ok (v : T)
  | err (e : Error)
deriving DecidableEq, Repr

/-- Result of one `rx.try_recv()` call on an `std::sync::mpsc::Receiver<T>`:
a value, an empty channel, or a channel whose sending half was dropped. -/
inductive TryRecv (T : Type) where
  | ok (v : T)
  | empty
  | disconnected
deriving DecidableEq, Repr

/-- Whether a `try_recv` result is the `Ok` case the source's
`if let Ok(result)` matches on. -/
def TryRecv.isOk : TryRecv T → Bool
  | .ok _ => true
  | .empty => false
  | .disconnected => false

/-- The environment one invocation of `wait_with_pump` runs in: the result
of the k-th `rx.try_recv()` call, the result of the k-th `GetMessageA` call
(return code paired with the message written into `msg`), and the thread
error state that `HRESULT::from_thread()` would read. -/
structure Env (T : Type) where
  tryRecv : Nat → TryRecv T
  getMessage : Nat → Int × MSG
  lastError : HRESULT

/-- Outcome of running the loop for a bounded number of iterations: either
the function returned (with a `Result`), or the fuel ran out with the loop
still going. -/
inductive Outcome (T : Type) where
  | ret (r : Result T)
  | running
deriving DecidableEq, Repr

/-- Observable trace of one invocation: the outcome, the number of
`GetMessageA` calls performed, and the messages pumped, in order.  Each
recorded message was passed to `TranslateMessage` and then
`DispatchMessageA`, in that order, so this single list is both the
translation trace and the dispatch trace. -/
structure Run (T : Type) where
  outcome : Outcome T
  retrievals : Nat
  dispatched : List MSG
deriving DecidableEq, Repr

/-- The loop of `wait_with_pump` (`src/src/webview2.rs` lines 45-62),
entered at iteration `k` with `acc` the messages already dispatched, run
for at most `fuel` further iterations.  Each iteration polls the channel
(`rx.try_recv()`), returning `Ok` on a value; otherwise it performs one
blocking retrieval (`GetMessageA`), returning the Windows error from the
thread state on code `-1`, returning `TaskCanceled` on code `0`, and
translating and dispatching the message then looping on any other code. -/
def pumpFrom (env : Env T) : Nat → Nat → List MSG → Run T
  | 0, k, acc => ⟨.running, k, acc⟩
  | fuel + 1, k, acc =>
    match env.tryRecv k with
    | .ok result => ⟨.ret (.ok result), k, acc⟩
    | _ =>
      if (env.getMessage k).1 = -1 then
        ⟨.ret (.err (Error.fromHRESULT env.lastError)), k + 1, acc⟩
      else if (env.getMessage k).1 = 0 then
        ⟨.ret (.err .TaskCanceled), k + 1, acc⟩
      else
        pumpFrom env fuel (k + 1) (acc ++ [(env.getMessage k).2])

/-- `wait_with_pump(rx)` (lines 41-63), run for at most `fuel` loop
iterations against the scripted environment `env`. -/
def wait_with_pump (env : Env T) (fuel : Nat) : Run T :=
  pumpFrom env fuel 0 []

/-- Unfolding of one loop iteration whose channel poll found a value. -/
theorem pumpFrom_succ_ok (env : Env T) (fuel k : Nat) (acc : List MSG) (v : T)
    (hpoll : env.tryRecv k = .ok v) :
    pumpFrom env (fuel + 1) k acc = ⟨.ret (.ok v), k, acc⟩ := by
  simp [pumpFrom, hpoll]

/-- Unfolding of one loop iteration whose channel poll found no value: the
iteration is decided by the code `GetMessageA` returns. -/
theorem pumpFrom_succ_notOk (env : Env T) (fuel k : Nat) (acc : List MSG)
    (hpoll : (env.tryRecv k).isOk = false) :
    pumpFrom env (fuel + 1) k acc =
      if (env.getMessage k).1 = -1 then
        ⟨.ret (.err (Error.fromHRESULT env.lastError)), k + 1, acc⟩
      else if (env.getMessage k).1 = 0 then
        ⟨.ret (.err .TaskCanceled), k + 1, acc⟩
      else pumpFrom env fuel (k + 1) (acc ++ [(env.getMessage k).2]) := by
  cases h : env.tryRecv k with
  | ok v => simp [TryRecv.isOk, h] at hpoll
  | empty => simp [pumpFrom, h]
  | disconnected => simp [pumpFrom, h]

/-- C10: the error type has exactly the four variants native-call failure,
callback failure with a string payload, cancellation and send failure, and
both explicit conversions from native error representations land in the
native-call-failure variant: a `windows::Error` is wrapped as is, and an
`HRESULT` is first turned into a `windows::Error` by `fast_error`. -/
theorem C10_error_type_shape :
    (∀ e : Error, (∃ w, e = .WindowsError w) ∨ (∃ s, e = .CallbackError s)
      ∨ e = .TaskCanceled ∨ e = .SendError)
    ∧ (∀ w, Error.fromWinError w = .WindowsError w)
    ∧ ∀ h, Error.fromHRESULT h = .WindowsError (WinError.fast_error h) := by
  refine ⟨fun e => ?_, fun w => rfl, fun h => rfl⟩
  cases e with
  | WindowsError w => exact Or.inl ⟨w, rfl⟩
  | CallbackError s => exact Or.inr (Or.inl ⟨s, rfl⟩)
  | TaskCanceled => exact Or.inr (Or.inr (Or.inl rfl))
  | SendError => exact Or.inr (Or.inr (Or.inr rfl))

/-- C1: when a value is already on the channel at entry, `wait_with_pump`
returns it at once, with zero `GetMessageA` calls and zero dispatches. -/
theorem C1_immediate_delivery (env : Env T) (fuel : Nat) (v : T)
    (hfuel : 0 < fuel) (hpoll : env.tryRecv 0 = .ok v) :
    wait_with_pump env fuel = ⟨.ret (.ok v), 0, []⟩ := by
  cases fuel with
  | zero => omega
  | succ f => simp [wait_with_pump, pumpFrom, hpoll]

/-- Witness for C1 at a concrete environment with the value `7` already
present on the channel. -/
theorem C1_immediate_delivery_witness :
    (0 : Nat) < 1
    ∧ (Env.mk (T := Nat) (fun _ => .ok 7) (fun _ => (1, ⟨0⟩)) 0).tryRecv 0
        = .ok 7
    ∧ wait_with_pump (Env.mk (T := Nat) (fun _ => .ok 7) (fun _ => (1, ⟨0⟩)) 0) 1
        = ⟨.ret (.ok 7), 0, []⟩ :=
  ⟨by decide, rfl,
    C1_immediate_delivery (Env.mk (fun _ => .ok 7) (fun _ => (1, ⟨0⟩)) 0) 1 7
      (by decide) rfl⟩

/-- C2: when an iteration's poll finds no value and `GetMessageA` returns
the fatal sentinel `-1`, the function returns the Windows error built from
the thread's last error at once: exactly one further retrieval (the failing
one), no dispatch of that message, and a result that is the same for any
environment agreeing with this one at the current iteration alone, however
it behaves later — so neither the channel nor the queue is consulted
again. -/
theorem C2_fatal_failure (env env' : Env T) (fuel fuel' k : Nat) (acc : List MSG)
    (hpoll : (env.tryRecv k).isOk = false)
    (hcode : (env.getMessage k).1 = -1)
    (hpoll' : env'.tryRecv k = env.tryRecv k)
    (hmsg' : env'.getMessage k = env.getMessage k)
    (herr : env'.lastError = env.lastError) :
    pumpFrom env (fuel + 1) k acc
      = ⟨.ret (.err (.WindowsError (WinError.fast_error env.lastError))), k + 1, acc⟩
    ∧ pumpFrom env' (fuel' + 1) k acc = pumpFrom env (fuel + 1) k acc := by
  have hpoll2 : (env'.tryRecv k).isOk = false := by rw [hpoll']; exact hpoll
  rw [pumpFrom_succ_notOk env fuel k acc hpoll,
    pumpFrom_succ_notOk env' fuel' k acc hpoll2, hmsg', herr, hcode]
  simp [Error.fromHRESULT]

/-- Witness for C2 at a concrete environment whose first retrieval fails
fatally, compared against an environment that differs everywhere after
iteration `0`. -/
theorem C2_fatal_failure_witness :
    ((Env.mk (T := Nat) (fun _ => .empty) (fun _ => (-1, ⟨0⟩)) 5).tryRecv 0).isOk
        = false
    ∧ ((Env.mk (T := Nat) (fun _ => .empty) (fun _ => (-1, ⟨0⟩)) 5).getMessage 0).1
        = -1
    ∧ pumpFrom (Env.mk (T := Nat) (fun _ => .empty) (fun _ => (-1, ⟨0⟩)) 5) 3 0 []
        = ⟨.ret (.err (.WindowsError (WinError.fast_error 5))), 1, []⟩
    ∧ pumpFrom
        (Env.mk (T := Nat)
          (fun j => if j = 0 then .empty else .ok 9)
          (fun j => if j = 0 then (-1, ⟨0⟩) else (0, ⟨1⟩)) 5) 8 0 []
      = pumpFrom (Env.mk (T := Nat) (fun _ => .empty) (fun _ => (-1, ⟨0⟩)) 5) 3 0 [] :=
  ⟨rfl, rfl,
    (C2_fatal_failure (Env.mk (fun _ => .empty) (fun _ => (-1, ⟨0⟩)) 5)
      (Env.mk (fun j => if j = 0 then .empty else .ok 9)
        (fun j => if j = 0 then (-1, ⟨0⟩) else (0, ⟨1⟩)) 5)
      2 7 0 [] rfl rfl rfl rfl rfl).1,
    (C2_fatal_failure (Env.mk (fun _ => .empty) (fun _ => (-1, ⟨0⟩)) 5)
      (Env.mk (fun j => if j = 0 then .empty else .ok 9)
        (fun j => if j = 0 then (-1, ⟨0⟩) else (0, ⟨1⟩)) 5)
      2 7 0 [] rfl rfl rfl rfl rfl).2⟩

/-- C3: when an iteration's poll finds no value and `GetMessageA` returns
the clean-termination code `0`, the function returns `TaskCanceled` at
once: exactly one further retrieval (the terminating one) and no further
dispatch. -/
theorem C3_cancellation (env : Env T) (fuel k : Nat) (acc : List MSG)
    (hpoll : (env.tryRecv k).isOk = false)
    (hcode : (env.getMessage k).1 = 0) :
    pumpFrom env (fuel + 1) k acc = ⟨.ret (.err .TaskCanceled), k + 1, acc⟩ := by
  rw [pumpFrom_succ_notOk env fuel k acc hpoll, hcode]
  simp

/-- Witness for C3 at a concrete environment whose first retrieval is the
termination message. -/
theorem C3_cancellation_witness :
    ((Env.mk (T := Nat) (fun _ => .empty) (fun _ => (0, ⟨0⟩)) 0).tryRecv 0).isOk
        = false
    ∧ ((Env.mk (T := Nat) (fun _ => .empty) (fun _ => (0, ⟨0⟩)) 0).getMessage 0).1
        = 0
    ∧ pumpFrom (Env.mk (T := Nat) (fun _ => .empty) (fun _ => (0, ⟨0⟩)) 0) 4 0 []
        = ⟨.ret (.err .TaskCanceled), 1, []⟩ :=
  ⟨rfl, rfl,
    C3_cancellation (Env.mk (fun _ => .empty) (fun _ => (0, ⟨0⟩)) 0) 3 0 [] rfl rfl⟩

/-- C5: a value that appears on the channel strictly between the k-th and
the (k+1)-th retrieval is seen by the very next poll: the k-th message is
still translated and dispatched, and the following iteration returns the
value with no further retrieval. -/
theorem C5_no_loss (env : Env T) (fuel k : Nat) (acc : List MSG) (v : T)
    (hpoll : (env.tryRecv k).isOk = false)
    (hm1 : (env.getMessage k).1 ≠ -1) (hm0 : (env.getMessage k).1 ≠ 0)
    (hnext : env.tryRecv (k + 1) = .ok v) :
    pumpFrom env (fuel + 2) k acc
      = ⟨.ret (.ok v), k + 1, acc ++ [(env.getMessage k).2]⟩ := by
  rw [pumpFrom_succ_notOk env (fuel + 1) k acc hpoll]
  simp only [hm1, hm0, if_false]
  exact pumpFrom_succ_ok env fuel (k + 1) _ v hnext

/-- Witness for C5: the channel is empty at the first poll, one ordinary
message is pumped, and the value `3` present at the second poll is
returned. -/
theorem C5_no_loss_witness :
    ((Env.mk (T := Nat)
        (fun j => if j = 0 then .empty else .ok 3) (fun _ => (1, ⟨42⟩)) 0).tryRecv
          0).isOk = false
    ∧ ((Env.mk (T := Nat)
        (fun j => if j = 0 then .empty else .ok 3) (fun _ => (1, ⟨42⟩)) 0).getMessage
          0).1 ≠ -1
    ∧ ((Env.mk (T := Nat)
        (fun j => if j = 0 then .empty else .ok 3) (fun _ => (1, ⟨42⟩)) 0).getMessage
          0).1 ≠ 0
    ∧ (Env.mk (T := Nat)
        (fun j => if j = 0 then .empty else .ok 3) (fun _ => (1, ⟨42⟩)) 0).tryRecv 1
        = .ok 3
    ∧ pumpFrom
        (Env.mk (T := Nat)
          (fun j => if j = 0 then .empty else .ok 3) (fun _ => (1, ⟨42⟩)) 0) 2 0 []
      = ⟨.ret (.ok 3), 1, [⟨42⟩]⟩ :=
  ⟨rfl, by decide, by decide, rfl,
    C5_no_loss
      (Env.mk (fun j => if j = 0 then .empty else .ok 3) (fun _ => (1, ⟨42⟩)) 0)
      0 0 [] 3 rfl (by decide) (by decide) rfl⟩

/-- A `try_recv` result is either a value or fails the `Ok` test. -/
theorem TryRecv.ok_or_isOk_false (t : TryRecv T) :
    (∃ v, t = .ok v) ∨ t.isOk = false := by
  cases t with
  | ok v => exact Or.inl ⟨v, rfl⟩
  | empty => exact Or.inr rfl
  | disconnected => exact Or.inr rfl

/-- Any returned result of the loop is a delivered value, the cancellation
error, or the Windows error built from the thread's last error. -/
theorem pumpFrom_ret_shape (env : Env T) :
    ∀ fuel k acc r, (pumpFrom env fuel k acc).outcome = .ret r →
      (∃ v, r = .ok v) ∨ r = .err .TaskCanceled
        ∨ r = .err (.WindowsError (WinError.fast_error env.lastError)) := by
  intro fuel
  induction fuel with
  | zero => intro k acc r h; simp [pumpFrom] at h
  | succ f ih =>
    intro k acc r h
    rcases TryRecv.ok_or_isOk_false (env.tryRecv k) with ⟨v, hp⟩ | hp
    · rw [pumpFrom_succ_ok env f k acc v hp] at h
      simp at h
      exact Or.inl ⟨v, h.symm⟩
    · rw [pumpFrom_succ_notOk env f k acc hp] at h
      by_cases h1 : (env.getMessage k).1 = -1
      · simp [h1, Error.fromHRESULT] at h
        exact Or.inr (Or.inr h.symm)
      · by_cases h0 : (env.getMessage k).1 = 0
        · simp [h1, h0] at h
          exact Or.inr (Or.inl h.symm)
        · simp [h1, h0] at h
          exact ih (k + 1) (acc ++ [(env.getMessage k).2]) r h

/-- When no poll ever finds a value, a returned result can only be the
cancellation error or the Windows error from the thread's last error. -/
theorem pumpFrom_ret_shape_noValue (env : Env T)
    (hpoll : ∀ j, (env.tryRecv j).isOk = false) :
    ∀ fuel k acc r, (pumpFrom env fuel k acc).outcome = .ret r →
      r = .err .TaskCanceled
        ∨ r = .err (.WindowsError (WinError.fast_error env.lastError)) := by
  intro fuel
  induction fuel with
  | zero => intro k acc r h; simp [pumpFrom] at h
  | succ f ih =>
    intro k acc r h
    rw [pumpFrom_succ_notOk env f k acc (hpoll k)] at h
    by_cases h1 : (env.getMessage k).1 = -1
    · simp [h1, Error.fromHRESULT] at h
      exact Or.inr h.symm
    · by_cases h0 : (env.getMessage k).1 = 0
      · simp [h1, h0] at h
        exact Or.inl h.symm
      · simp [h1, h0] at h
        exact ih (k + 1) (acc ++ [(env.getMessage k).2]) r h

/-- C6: a terminating invocation produces exactly one outcome, drawn from
the three possibilities delivered value, `TaskCanceled`, or the
`WindowsError` built from the thread's last error; the returned `Run`
record is final, so nothing is dispatched after returning. -/
theorem C6_three_outcomes (env : Env T) (fuel : Nat) (r : Result T)
    (h : (wait_with_pump env fuel).outcome = .ret r) :
    (∃ v, r = .ok v) ∨ r = .err .TaskCanceled
      ∨ r = .err (.WindowsError (WinError.fast_error env.lastError)) :=
  pumpFrom_ret_shape env fuel 0 [] r h

/-- Witness for C6 at a concrete terminating run whose first message is the
termination message. -/
theorem C6_three_outcomes_witness :
    (∃ v : Nat, (Result.err .TaskCanceled : Result Nat) = .ok v)
    ∨ (Result.err .TaskCanceled : Result Nat) = .err .TaskCanceled
    ∨ (Result.err .TaskCanceled : Result Nat)
        = .err (.WindowsError (WinError.fast_error
            (Env.mk (T := Nat) (fun _ => .empty) (fun _ => (0, ⟨0⟩)) 0).lastError)) :=
  C6_three_outcomes (Env.mk (fun _ => .empty) (fun _ => (0, ⟨0⟩)) 0) 1
    (.err .TaskCanceled) rfl

/-- C9: the function can only fail with `TaskCanceled` or `WindowsError`;
the `CallbackError` and `SendError` variants are unreachable from
`wait_with_pump`. -/
theorem C9_unreachable_error_variants (env : Env T) (fuel : Nat) (e : Error)
    (h : (wait_with_pump env fuel).outcome = .ret (.err e)) :
    (∀ s, e ≠ .CallbackError s) ∧ e ≠ .SendError := by
  rcases pumpFrom_ret_shape env fuel 0 [] (.err e) h with ⟨v, hv⟩ | he | he
  · exact absurd hv (by simp)
  · injection he with he'
    subst he'
    exact ⟨fun s => by simp, by simp⟩
  · injection he with he'
    subst he'
    exact ⟨fun s => by simp, by simp⟩

/-- Witness for C9 on a concrete run ending in cancellation. -/
theorem C9_unreachable_error_variants_witness :
    (∀ s, Error.TaskCanceled ≠ .CallbackError s) ∧ Error.TaskCanceled ≠ .SendError :=
  C9_unreachable_error_variants (Env.mk (T := Nat) (fun _ => .empty)
    (fun _ => (0, ⟨0⟩)) 0) 1 .TaskCanceled rfl

/-- C7: with the channel never delivering and every retrieval returning an
ordinary message, the loop never returns, whatever fuel it is given: there
is no timeout and no iteration bound. -/
theorem C7_no_timeout (env : Env T)
    (hpoll : ∀ j, (env.tryRecv j).isOk = false)
    (hm1 : ∀ j, (env.getMessage j).1 ≠ -1)
    (hm0 : ∀ j, (env.getMessage j).1 ≠ 0) :
    ∀ fuel k acc, (pumpFrom env fuel k acc).outcome = .running := by
  intro fuel
  induction fuel with
  | zero => intro k acc; rfl
  | succ f ih =>
    intro k acc
    rw [pumpFrom_succ_notOk env f k acc (hpoll k),
      if_neg (hm1 k), if_neg (hm0 k)]
    exact ih (k + 1) (acc ++ [(env.getMessage k).2])

/-- Witness for C7: five iterations of an empty channel and ordinary
messages leave the loop still running. -/
theorem C7_no_timeout_witness :
    (pumpFrom (Env.mk (T := Nat) (fun _ => .empty) (fun _ => (1, ⟨0⟩)) 0)
      5 0 []).outcome = .running :=
  C7_no_timeout (Env.mk (T := Nat) (fun _ => .empty) (fun _ => (1, ⟨0⟩)) 0)
    (fun _ => rfl) (fun _ => show (1 : Int) ≠ -1 by decide)
    (fun _ => show (1 : Int) ≠ 0 by decide) 5 0 []

/-- C8: a channel whose sender was dropped behaves exactly like an empty
one: every run coincides with the run over the empty channel, and any
return is cancellation or dispatch failure, never an outcome caused by the
channel being closed. -/
theorem C8_disconnected_like_empty (env : Env T)
    (hpoll : ∀ j, env.tryRecv j = .disconnected) :
    (∀ fuel k acc,
      pumpFrom env fuel k acc
        = pumpFrom ⟨fun _ => .empty, env.getMessage, env.lastError⟩ fuel k acc)
    ∧ ∀ fuel r, (wait_with_pump env fuel).outcome = .ret r →
        r = .err .TaskCanceled
          ∨ r = .err (.WindowsError (WinError.fast_error env.lastError)) := by
  constructor
  · intro fuel
    induction fuel with
    | zero => intro k acc; rfl
    | succ f ih =>
      intro k acc
      rw [pumpFrom_succ_notOk env f k acc (by rw [hpoll k]; rfl),
        pumpFrom_succ_notOk ⟨fun _ => .empty, env.getMessage, env.lastError⟩
          f k acc rfl]
      by_cases h1 : (env.getMessage k).1 = -1
      · simp [h1]
      · by_cases h0 : (env.getMessage k).1 = 0
        · simp [h1, h0]
        · simp only [h1, h0, if_false]
          exact ih (k + 1) (acc ++ [(env.getMessage k).2])
  · intro fuel r h
    exact pumpFrom_ret_shape_noValue env (fun j => by rw [hpoll j]; rfl)
      fuel 0 [] r h

/-- Witness for C8: a disconnected channel with a terminating message
queue cancels just as the empty channel does. -/
theorem C8_disconnected_like_empty_witness :
    pumpFrom (Env.mk (T := Nat) (fun _ => .disconnected) (fun _ => (0, ⟨0⟩)) 0)
        1 0 []
      = pumpFrom ⟨fun _ => .empty,
          (Env.mk (T := Nat) (fun _ => .disconnected) (fun _ => (0, ⟨0⟩)) 0).getMessage,
          (Env.mk (T := Nat) (fun _ => .disconnected) (fun _ => (0, ⟨0⟩)) 0).lastError⟩
          1 0 [] :=
  (C8_disconnected_like_empty
    (Env.mk (T := Nat) (fun _ => .disconnected) (fun _ => (0, ⟨0⟩)) 0)
    (fun _ => rfl)).1 1 0 []

/-- Running the loop from iteration `k` against a script of ordinary
messages followed by the termination message, with the channel empty
throughout, dispatches every scripted message in order and then cancels. -/
theorem pumpFrom_script (env : Env T)
    (hpoll : ∀ j, (env.tryRecv j).isOk = false) :
    ∀ (script : List (Int × MSG)) (k : Nat) (acc : List MSG) (fuel : Nat),
    script.length < fuel →
    (∀ i : Fin script.length, env.getMessage (k + i) = script.get i) →
    (∀ p ∈ script, p.1 ≠ -1 ∧ p.1 ≠ 0) →
    (env.getMessage (k + script.length)).1 = 0 →
    pumpFrom env fuel k acc
      = ⟨.ret (.err .TaskCanceled), k + script.length + 1, acc ++ script.map Prod.snd⟩ := by
  intro script
  induction script with
  | nil =>
    intro k acc fuel hfuel hscript hcodes hterm
    obtain ⟨f, rfl⟩ : ∃ f, fuel = f + 1 := ⟨fuel - 1, by omega⟩
    simp only [List.length_nil, Nat.add_zero] at hterm
    rw [pumpFrom_succ_notOk env f k acc (hpoll k),
      if_neg (by rw [hterm]; decide), if_pos hterm]
    simp
  | cons p rest ih =>
    intro k acc fuel hfuel hscript hcodes hterm
    obtain ⟨f, rfl⟩ : ∃ f, fuel = f + 1 := ⟨fuel - 1, by omega⟩
    have hp0 : env.getMessage k = p := by
      have h0 := hscript ⟨0, by simp⟩
      simpa using h0
    have hpc := hcodes p (List.mem_cons_self _ _)
    rw [pumpFrom_succ_notOk env f k acc (hpoll k),
      if_neg (by rw [hp0]; exact hpc.1), if_neg (by rw [hp0]; exact hpc.2), hp0]
    have hrest := ih (k + 1) (acc ++ [p.2]) f
      (by simp only [List.length_cons] at hfuel; omega)
      (fun i => by
        have hi := hscript ⟨i + 1, by simp only [List.length_cons]; omega⟩
        have harith : k + (↑i + 1) = k + 1 + ↑i := by omega
        simpa [harith] using hi)
      (fun q hq => hcodes q (List.mem_cons_of_mem _ hq))
      (by
        have harith : k + 1 + rest.length = k + (rest.length + 1) := by omega
        rw [harith]
        simpa using hterm)
    rw [hrest]
    refine congrArg₂ (Run.mk _) (by simp only [List.length_cons]; omega) (by simp)

/-- C4: for a message sequence of `N` ordinary messages followed by the
termination message, with the channel empty throughout, `wait_with_pump`
translates and dispatches all `N` messages in arrival order before
returning `TaskCanceled`, using exactly `N + 1` retrievals. -/
theorem C4_dispatch_order (env : Env T) (script : List (Int × MSG)) (extra : Nat)
    (hpoll : ∀ j, (env.tryRecv j).isOk = false)
    (hscript : ∀ i : Fin script.length, env.getMessage i = script.get i)
    (hcodes : ∀ p ∈ script, p.1 ≠ -1 ∧ p.1 ≠ 0)
    (hterm : (env.getMessage script.length).1 = 0) :
    wait_with_pump env (script.length + 1 + extra)
      = ⟨.ret (.err .TaskCanceled), script.length + 1, script.map Prod.snd⟩ := by
  have h := pumpFrom_script env hpoll script 0 [] (script.length + 1 + extra)
    (by omega) (fun i => by simpa using hscript i) hcodes (by simpa using hterm)
  simpa [wait_with_pump] using h

/-- Witness for C4: two ordinary messages then the termination message are
dispatched in order before cancellation, with three retrievals. -/
theorem C4_dispatch_order_witness :
    wait_with_pump
        (Env.mk (T := Nat) (fun _ => .empty)
          (fun j => if j = 0 then (1, ⟨10⟩) else if j = 1 then (2, ⟨11⟩) else (0, ⟨0⟩))
          0) 3
      = ⟨.ret (.err .TaskCanceled), 3, [⟨10⟩, ⟨11⟩]⟩ := by
  have h := C4_dispatch_order
    (Env.mk (T := Nat) (fun _ => .empty)
      (fun j => if j = 0 then (1, ⟨10⟩) else if j = 1 then (2, ⟨11⟩) else (0, ⟨0⟩)) 0)
    [(1, ⟨10⟩), (2, ⟨11⟩)] 0 (fun _ => rfl)
    (fun i => by
      match i with
      | ⟨0, _⟩ => rfl
      | ⟨1, _⟩ => rfl)
    (by decide) rfl
  simpa using h

end Webview2
